import Mathlib

/-!
Verification of the `right-to-comment` web front-end (Go).

This file shallowly embeds the program's core: the duration formatter
(`formatDuration`), the two-stage YouTube search adapter (`searchYouTube`),
the presentation handlers (`handleSearch`, `embedVideo`), the storage
initializer (`InitDB`) and the startup sequence (`main`).

External collaborators (the Go standard library's `time.ParseDuration`,
`strings.ToLower`, `strings.ReplaceAll`, `fmt.Sprintf`, the YouTube API
client, gin, godotenv, database/sql) are embedded as faithfully as the
claims require; every deliberate divergence is recorded in the doc comment
of the corresponding definition.
-/

/-! ## Go standard library model: strings -/

/-- Go `strings.ToLower`, per character.  The ASCII range is modelled
exactly; of the non-ASCII simple case mappings only U+039C (capital mu) →
U+03BC is included, because that is the only non-ASCII mapping that can
change the outcome of `time.ParseDuration` (via the `μs` unit) or the
`"pt"` replacement.  All other characters are left unchanged; Go lowers
some of them differently, but such characters can neither become `p`, `t`,
a digit, a dot, a sign, nor part of a recognized duration unit, so every
definition and theorem below is unaffected. -/
def goToLowerChar (c : Char) : Char :=
  if 'A' ≤ c ∧ c ≤ 'Z' then Char.ofNat (c.toNat + 32)
  else if c = 'Μ' then 'μ'
  else c

/-- Go `strings.ToLower` on a whole string (see `goToLowerChar`). -/
def goStringToLower (s : String) : String :=
  String.mk (s.data.map goToLowerChar)

/-- Go `strings.ReplaceAll(s, "pt", "")` on the character list: a single
left-to-right pass removing each non-overlapping occurrence of `pt`.  As in
Go, the pass does not rescan text it has already emitted, so a removal can
leave a newly adjacent `pt` in the output (e.g. `pptt` becomes `pt`). -/
def replaceAllPTList : List Char → List Char
  | [] => []
  | [c] => [c]
  | c1 :: c2 :: rest =>
    if c1 = 'p' ∧ c2 = 't' then replaceAllPTList rest
    else c1 :: replaceAllPTList (c2 :: rest)

/-- Go `strings.ReplaceAll(s, "pt", "")` on strings. -/
def goReplaceAllPT (s : String) : String :=
  String.mk (replaceAllPTList s.data)

/-! ## Go standard library model: time.ParseDuration

Embeds Go's `time.ParseDuration` (and its helpers `leadingInt`,
`leadingFraction`): grammar `[-+]?([0-9]*(\.[0-9]*)?[a-z]+)+`, units
`ns us µs μs ms s m h`, accumulation in a `uint64` that must stay `≤ 2^63`,
with the final non-negated value required to be `≤ 2^63 - 1`. -/

/-- Go `time` package: `leadingInt`.  Consumes leading digits into `x`,
failing (like Go's `errLeadingInt`) when the accumulator would pass
`2^63`.  Returns the value and the unconsumed remainder. -/
def leadingInt : List Char → Nat → Option (Nat × List Char)
  | [], x => some (x, [])
  | c :: rest, x =>
    if ¬ c.isDigit then some (x, c :: rest)
    else if x > 2 ^ 63 / 10 then none
    else
      let y := x * 10 + (c.toNat - 48)
      if y > 2 ^ 63 then none
      else leadingInt rest y

/-- Go `time` package: `leadingFraction`.  Consumes leading digits into
`x`, tracking `scale = 10^(digits kept)`; once the accumulator would
overflow, further digits are consumed but ignored (Go's `overflow` flag).
Returns `(x, scale, remainder)`. -/
def leadingFraction : List Char → Nat → Nat → Bool → Nat × Nat × List Char
  | [], x, scale, _ => (x, scale, [])
  | c :: rest, x, scale, overflow =>
    if ¬ c.isDigit then (x, scale, c :: rest)
    else if overflow then leadingFraction rest x scale overflow
    else if x > (2 ^ 63 - 1) / 10 then leadingFraction rest x scale true
    else
      let y := x * 10 + (c.toNat - 48)
      if y > 2 ^ 63 then leadingFraction rest x scale true
      else leadingFraction rest y (scale * 10) overflow

/-- Go `time` package: the `unitMap` for `ParseDuration`, giving each
unit's length in nanoseconds (`µ` is U+00B5, `μ` is U+03BC). -/
def durationUnitNs (u : List Char) : Option Nat :=
  if u = ['n', 's'] then some 1
  else if u = ['u', 's'] then some 1000
  else if u = ['µ', 's'] then some 1000
  else if u = ['μ', 's'] then some 1000
  else if u = ['m', 's'] then some 1000000
  else if u = ['s'] then some 1000000000
  else if u = ['m'] then some 60000000000
  else if u = ['h'] then some 3600000000000
  else none

/-- The main loop of Go's `time.ParseDuration`, over the unsigned part of
the input.  Each iteration parses one `[0-9]*(\.[0-9]*)?unit` component and
adds it to the accumulator `d`, failing exactly where Go returns an error
(leading non-digit/non-dot, digitless component, missing or unknown unit,
or an accumulator above `2^63`).

Two deliberate modelling choices: (1) Go computes the fractional
contribution as `uint64(float64(f) * (float64(unit) / scale))`; here it is
the exact `f * unit / scale` in natural numbers.  The two can differ by a
few nanoseconds on some fractional inputs; no theorem below depends on the
value of a fractional contribution.  (2) recursion is by explicit fuel;
every iteration consumes at least the one-character unit, so the initial
fuel `length + 1` used by `goParseDuration` is never exhausted. -/
def parseDurationLoop : Nat → List Char → Nat → Option Nat
  | 0, _, _ => none
  | _ + 1, [], d => some d
  | fuel + 1, c0 :: s0, d =>
    let s := c0 :: s0
    if ¬ (c0 = '.' ∨ c0.isDigit) then none
    else
      match leadingInt s 0 with
      | none => none
      | some (v, s1) =>
        let pre : Bool := s1.length ≠ s.length
        let fps :=
          match s1 with
          | '.' :: s1tail =>
            let fs := leadingFraction s1tail 0 1 false
            (fs.1, fs.2.1, fs.2.2, (fs.2.2.length ≠ s1tail.length : Bool))
          | _ => (0, 1, s1, false)
        let f := fps.1
        let scale := fps.2.1
        let s2 := fps.2.2.1
        let post := fps.2.2.2
        if pre = false ∧ post = false then none
        else
          let u := s2.takeWhile (fun c => ¬ (c = '.' ∨ c.isDigit))
          let s3 := s2.dropWhile (fun c => ¬ (c = '.' ∨ c.isDigit))
          if u = [] then none
          else
            match durationUnitNs u with
            | none => none
            | some unit =>
              if v > 2 ^ 63 / unit then none
              else
                let v1 := v * unit
                let v2 := if f > 0 then v1 + f * unit / scale else v1
                if f > 0 ∧ v2 > 2 ^ 63 then none
                else
                  let d1 := d + v2
                  if d1 > 2 ^ 63 then none
                  else parseDurationLoop fuel s3 d1

/-- Go `time.ParseDuration`, returning the duration in nanoseconds, or
`none` where Go returns an error.  Consumes an optional sign, special-cases
the remaining input `"0"`, rejects an empty remainder, then runs
`parseDurationLoop`; an unnegated total above `2^63 - 1` is an error. -/
def goParseDuration (s : String) : Option Int :=
  let signAndRest : Bool × List Char :=
    match s.data with
    | '-' :: r => (true, r)
    | '+' :: r => (false, r)
    | r => (false, r)
  let neg := signAndRest.1
  let rest := signAndRest.2
  if rest = ['0'] then some 0
  else if rest = [] then none
  else
    match parseDurationLoop (rest.length + 1) rest 0 with
    | none => none
    | some d =>
      if neg then some (-(d : Int))
      else if d > 2 ^ 63 - 1 then none
      else some ((d : Int))

/-! ## Duration formatter (`formatDuration`, main.go lines 107–118) -/

/-- Go `fmt.Sprintf("%02d", n)`: the decimal representation (Go and
`Int.repr` print integers identically), left-padded with `0` to width 2.
For every `Int` the padding applies exactly when the printed form is a
single character, i.e. a single digit, matching Go's `%02d`. -/
def goSprintf02d (n : Int) : String :=
  let s := Int.repr n
  if s.length < 2 then "0" ++ s else s

/-- The arithmetic-and-print half of `formatDuration` (main.go lines
110–117), applied to a parsed duration `d` in nanoseconds:

  hours   := int(d.Hours())
  minutes := int(d.Minutes()) % 60
  seconds := int(d.Seconds()) % 60

Go computes `d.Hours()` etc. as `float64` and truncates with `int(...)`;
this is modelled as the truncated integer division `Int.tdiv` (and Go's
truncated `%` as `Int.tmod`).  The float and integer computations agree for
every `|d| < 2^53` ns (about 104 days); for larger magnitudes the float
rounding can carry a component, which only moves values between branches
whose printed shape the theorems below already cover. -/
def formatClock (d : Int) : String :=
  let hours := d.tdiv 3600000000000
  let minutes := (d.tdiv 60000000000).tmod 60
  let seconds := (d.tdiv 1000000000).tmod 60
  if hours > 0 then
    Int.repr hours ++ ":" ++ goSprintf02d minutes ++ ":" ++ goSprintf02d seconds
  else
    Int.repr minutes ++ ":" ++ goSprintf02d seconds

/-- `formatDuration` (main.go lines 107–118):
`d, _ := time.ParseDuration(strings.ReplaceAll(strings.ToLower(duration), "pt", ""))`
— the parse error is discarded, so a failed parse leaves Go's zero-value
duration `0` — followed by the clock formatting of `formatClock`. -/
def formatDuration (duration : String) : String :=
  formatClock ((goParseDuration (goReplaceAllPT (goStringToLower duration))).getD 0)

/-! ## Video search adapter (`searchYouTube`, main.go lines 62–104)

The YouTube API client (`google.golang.org/api/youtube/v3`) is an external
collaborator.  It is embedded as an environment: `youtube.NewService` may
fail per API key, and a service answers each of the two calls the adapter
makes — `service.Search.List(...).Do()` and `service.Videos.List(...).Do()`
— with either a response item list or an error (`none`). -/

/-- `item.Id` of a search result (`youtube.SearchResult`): only the
`VideoId` field is read by the adapter. -/
structure SearchResultId where
  videoId : String
deriving DecidableEq

/-- One item of the search response (`youtube.SearchResult`). -/
structure SearchResult where
  id : SearchResultId
deriving DecidableEq

/-- `item.Snippet` of a details item (`youtube.VideoSnippet`): the adapter
reads `Title` and `ChannelTitle`. -/
structure VideoSnippet where
  title : String
  channelTitle : String
deriving DecidableEq

/-- `item.ContentDetails` of a details item: the adapter reads the raw
ISO-8601 `Duration` string. -/
structure VideoContentDetails where
  duration : String
deriving DecidableEq

/-- One item of the details response (`youtube.Video`). -/
structure Video where
  id : String
  snippet : VideoSnippet
  contentDetails : VideoContentDetails
deriving DecidableEq

/-- Parameters of `service.Search.List([...]).Q(query).MaxResults(10).Type("video")`. -/
structure SearchParams where
  part : List String
  q : String
  maxResults : Nat
  resultType : String
deriving DecidableEq

/-- Parameters of `service.Videos.List([...]).Id(ids)`. -/
structure VideosParams where
  part : List String
  id : String
deriving DecidableEq

/-- The external YouTube service: each `.Do()` call either returns the
response's item list or fails (`none`). -/
structure YouTubeService where
  searchList : SearchParams → Option (List SearchResult)
  videosList : VideosParams → Option (List Video)

/-- The external world seen by the adapter: `youtube.NewService` either
yields a service for the given API key or fails. -/
structure YouTubeEnv where
  newService : String → Option YouTubeService

/-- One record of the adapter's output: the Go code builds a
`map[string]string` with keys `id`, `title`, `channel`, `duration`. -/
structure VideoRecord where
  id : String
  title : String
  channel : String
  duration : String
deriving DecidableEq

/-- An external call issued by the adapter, for stating temporal claims. -/
inductive APICall where
  | search (p : SearchParams)
  | videos (p : VideosParams)
deriving DecidableEq

/-- `searchYouTube` (main.go lines 62–104), instrumented with the list of
external calls it issues, in order:

1. `youtube.NewService(ctx, option.WithAPIKey(apiKey))`; on error print and
   return `nil`.
2. `service.Search.List([id snippet]).Q(query).MaxResults(10).Type("video").Do()`;
   on error print and return `nil`.
3. Collect `item.Id.VideoId` from the search items, in order.
4. `service.Videos.List([snippet contentDetails]).Id(strings.Join(videoIDs, ",")).Do()`;
   on error print and return `nil`.
5. For each details item, in order, build the record
   `{id, title, channel, duration = formatDuration(raw)}`. -/
def searchYouTubeT (env : YouTubeEnv) (apiKey query : String) :
    List VideoRecord × List APICall :=
  match env.newService apiKey with
  | none => ([], [])
  | some service =>
    let sp : SearchParams := ⟨["id", "snippet"], query, 10, "video"⟩
    match service.searchList sp with
    | none => ([], [APICall.search sp])
    | some searchItems =>
      let videoIDs := searchItems.map (fun item => item.id.videoId)
      let vp : VideosParams :=
        ⟨["snippet", "contentDetails"], String.intercalate "," videoIDs⟩
      match service.videosList vp with
      | none => ([], [APICall.search sp, APICall.videos vp])
      | some detailItems =>
        (detailItems.map (fun item =>
          { id := item.id
            title := item.snippet.title
            channel := item.snippet.channelTitle
            duration := formatDuration item.contentDetails.duration }),
         [APICall.search sp, APICall.videos vp])

/-- `searchYouTube`: the adapter's return value (the call log dropped). -/
def searchYouTube (env : YouTubeEnv) (apiKey query : String) : List VideoRecord :=
  (searchYouTubeT env apiKey query).1

/-! ## Presentation handlers (main.go lines 42–59 and 122–126) -/

/-- The `gin.H` payload handed to a template: `{}`, `{"Videos": vs}`, or
`{"EmbedURL": u}`. -/
inductive TemplateData where
  | empty
  | videos (vs : List VideoRecord)
  | embedURL (u : String)
deriving DecidableEq

/-- A response written on the gin context: `c.String(status, body)` or
`c.HTML(status, templateName, data)`. -/
inductive GinResponse where
  | plainText (status : Nat) (body : String)
  | htmlTemplate (status : Nat) (templateName : String) (data : TemplateData)
deriving DecidableEq

/-- `showHomePage` (main.go lines 42–44). -/
def showHomePage : GinResponse :=
  GinResponse.htmlTemplate 200 "index.html" TemplateData.empty

/-- `handleSearch` (main.go lines 47–59): the handler closure over the API
key, applied to the form field `query` (`c.PostForm("query")`).  It calls
the adapter; an empty result yields `c.String(http.StatusNotFound, "No
videos found.")`, otherwise `c.HTML(http.StatusOK, "results.html",
gin.H{"Videos": videos})`. -/
def handleSearch (env : YouTubeEnv) (apiKey query : String) : GinResponse :=
  let videos := searchYouTube env apiKey query
  if videos.length = 0 then
    GinResponse.plainText 404 "No videos found."
  else
    GinResponse.htmlTemplate 200 "results.html" (TemplateData.videos videos)

/-- Go `fmt.Sprintf` for a format containing verbs, specialised to the one
use in this program: a single `%s` verb and one string argument.  A single
left-to-right scan substitutes the argument at the first `%s`. -/
def substPercentS : List Char → List Char → List Char
  | [], _ => []
  | [c], _ => [c]
  | c1 :: c2 :: rest, arg =>
    if c1 = '%' ∧ c2 = 's' then arg ++ rest
    else c1 :: substPercentS (c2 :: rest) arg

/-- Go `fmt.Sprintf(format, arg)` with a single `%s` verb. -/
def goSprintfS (format arg : String) : String :=
  String.mk (substPercentS format.data arg.data)

/-- `embedVideo` (main.go lines 122–126): reads the path parameter `id`,
builds `fmt.Sprintf("https://www.youtube.com/embed/%s", videoID)` and
renders `embed.html` with `gin.H{"EmbedURL": embedURL}`. -/
def embedVideo (videoID : String) : GinResponse :=
  GinResponse.htmlTemplate 200 "embed.html"
    (TemplateData.embedURL (goSprintfS "https://www.youtube.com/embed/%s" videoID))

/-! ## Storage initialization (`InitDB`, database package) and startup -/

/-- The external `database/sql` world as `InitDB` sees it: the outcome of
`sql.Open("sqlite", dbPath)` and the outcome of `db.ExecContext` for the
one statement the package issues. -/
structure DBEnv where
  openDB : Except String Unit
  execContext : String → Except String Unit

/-- The single SQL statement `InitDB` executes. -/
def createCommentsTableSQL : String :=
  "CREATE TABLE IF NOT EXISTS comments (id INTEGER PRIMARY KEY AUTOINCREMENT, video_id TEXT NOT NULL, comment TEXT, created_at TIMESTAMP DEFAULT CURRENT_TIMESTAMP)"

/-- `InitDB` (database package, part_000 lines 12–31): open the sqlite
database, propagating an open error; execute the comments-table creation,
propagating an exec error; otherwise succeed. -/
def InitDB (env : DBEnv) : Except String Unit :=
  match env.openDB with
  | Except.error e => Except.error e
  | Except.ok _ =>
    match env.execContext createCommentsTableSQL with
    | Except.error e => Except.error e
    | Except.ok _ => Except.ok ()

/-- A step of the startup sequence, for stating ordering claims. -/
inductive StartupEvent where
  | dotenvLoad
  | getenv (name : String)
  | initDB
  | listen (addr : String)
deriving DecidableEq

/-- The terminal state of startup: `log.Fatal(msg)` or serving requests. -/
inductive MainOutcome where
  | fatal (msg : String)
  | serving
deriving DecidableEq

/-- The external world seen by `main`: the outcome of `godotenv.Load()`,
the process environment (`os.Getenv`, which returns `""` for an unset
variable), and the `database/sql` environment behind `InitDB`. -/
structure MainEnv where
  dotenvLoad : Except String Unit
  getenvVar : String → String
  db : DBEnv

/-- `main` (main.go lines 18–39), instrumented with the startup steps it
performs, in order:

1. `godotenv.Load()`; on error `log.Fatal("Error loading .env file")`.
2. `apiKey := os.Getenv("YOUTUBE_API_KEY")`; if empty,
   `log.Fatal("YouTube API key not found in environment")`.
3. Modelled from the spec: the startup wiring that calls the database
   package's `InitDB` and treats its failure as fatal is not present in
   `src/` (only `InitDB` itself is); per spec §7, "failed storage
   initialization" is a fatal startup error, modelled here as an `InitDB`
   call after the credential check whose error is fatal.
4. `router.Run(":8080")`: the process serves. -/
def runMainT (env : MainEnv) : MainOutcome × List StartupEvent :=
  match env.dotenvLoad with
  | Except.error _ => (MainOutcome.fatal "Error loading .env file", [StartupEvent.dotenvLoad])
  | Except.ok _ =>
    let apiKey := env.getenvVar "YOUTUBE_API_KEY"
    if apiKey = "" then
      (MainOutcome.fatal "YouTube API key not found in environment",
       [StartupEvent.dotenvLoad, StartupEvent.getenv "YOUTUBE_API_KEY"])
    else
      match InitDB env.db with
      | Except.error _ =>
        (MainOutcome.fatal "storage initialization failed",
         [StartupEvent.dotenvLoad, StartupEvent.getenv "YOUTUBE_API_KEY", StartupEvent.initDB])
      | Except.ok _ =>
        (MainOutcome.serving,
         [StartupEvent.dotenvLoad, StartupEvent.getenv "YOUTUBE_API_KEY", StartupEvent.initDB,
          StartupEvent.listen ":8080"])

/-! ## Spec-side formalizations

Definitions in this section follow the words of the specification (not the
code); the theorems below compare the code's behavior against them. -/

/-- Spec wording: a number "zero-padded to two digits". -/
def paddedTwoDigits (k : Nat) : String :=
  if k < 10 then "0" ++ Nat.repr k else Nat.repr k

/-- Spec wording for the zero-hour output: `MM:SS` with unpadded minutes
and two-digit zero-padded seconds (minutes and seconds of a clock reading,
hence below 60). -/
@[reducible] def mmssShape (out : String) : Prop :=
  ∃ m ∈ Finset.range 60, ∃ s ∈ Finset.range 60,
    out = Nat.repr m ++ ":" ++ paddedTwoDigits s

/-- Spec wording for the nonzero-hour output: `H:MM:SS` with unpadded
positive hours and two-digit zero-padded minutes and seconds. -/
def hmmssShape (out : String) : Prop :=
  ∃ h : Nat, 0 < h ∧ ∃ m ∈ Finset.range 60, ∃ s ∈ Finset.range 60,
    out = Nat.repr h ++ ":" ++ paddedTwoDigits m ++ ":" ++ paddedTwoDigits s

/-- The claim that for every duration string, a zero hour component of the
parsed value yields an `MM:SS` output and a nonzero hour component an
`H:MM:SS` output (the hour component being the one the code derives,
truncated division by an hour of nanoseconds). -/
def claimedClockShapes : Prop :=
  ∀ (s : String) (d : Int),
    goParseDuration (goReplaceAllPT (goStringToLower s)) = some d →
    (d.tdiv 3600000000000 = 0 → mmssShape (formatDuration s)) ∧
    (d.tdiv 3600000000000 ≠ 0 → hmmssShape (formatDuration s))

/-- Spec wording for the claimed parsing policy: strip exactly one
case-insensitive `PT` prefix from the front of the (lowercased) string,
leaving any other occurrence of `pt` intact. -/
def specStripOnePT (s : String) : String :=
  match (goStringToLower s).data with
  | 'p' :: 't' :: rest => String.mk rest
  | t => String.mk t

/-- The claim that `formatDuration`'s parsing step behaves like stripping
exactly one case-insensitive `PT` prefix and parsing the remainder. -/
def claimedSinglePTStrip : Prop :=
  ∀ s : String,
    formatDuration s = formatClock ((goParseDuration (specStripOnePT s)).getD 0)

/-- Whether a character list contains `pt` as a contiguous substring. -/
def hasPT : List Char → Bool
  | [] => false
  | [_] => false
  | c1 :: c2 :: rest => (c1 == 'p' && c2 == 't') || hasPT (c2 :: rest)

/-! ## Helper lemmas -/

theorem stringMk_data (s : String) : String.mk s.data = s := rfl

theorem stringMk_append (a b : List Char) :
    String.mk (a ++ b) = String.mk a ++ String.mk b := rfl

theorem int_repr_ofNat (m : Nat) : Int.repr (Int.ofNat m) = Nat.repr m := rfl

theorem int_repr_toNat (n : Int) (h : 0 ≤ n) : Int.repr n = Nat.repr n.toNat := by
  conv_lhs => rw [← Int.toNat_of_nonneg h]
  rfl

theorem goSprintf02d_pad : ∀ k : Nat, k < 60 →
    goSprintf02d (k : Int) = paddedTwoDigits k := by decide

/-- A list without a `pt` occurrence passes through the replacement pass
unchanged. -/
theorem replaceAllPTList_eq_self : ∀ l : List Char, hasPT l = false →
    replaceAllPTList l = l
  | [], _ => rfl
  | [c], _ => rfl
  | c1 :: c2 :: rest, h => by
    have hsplit : ¬(c1 = 'p' ∧ c2 = 't') ∧ hasPT (c2 :: rest) = false := by
      by_cases hc : c1 = 'p' ∧ c2 = 't'
      · exfalso
        have : hasPT (c1 :: c2 :: rest) = true := by
          simp [hasPT, hc.1, hc.2]
        rw [this] at h
        simp at h
      · constructor
        · exact hc
        · have : hasPT (c1 :: c2 :: rest) = ((c1 == 'p' && c2 == 't') || hasPT (c2 :: rest)) := rfl
          rw [this] at h
          exact (Bool.or_eq_false_iff.mp h).2
    rw [replaceAllPTList, if_neg hsplit.1,
      replaceAllPTList_eq_self (c2 :: rest) hsplit.2]

/-- Substituting into a format whose prefix is free of `%` places the
argument exactly at the trailing `%s`. -/
theorem substPercentS_no_percent : ∀ (l arg : List Char),
    (∀ c ∈ l, c ≠ '%') →
    substPercentS (l ++ ['%', 's']) arg = l ++ arg
  | [], arg, _ => by simp [substPercentS]
  | c :: rest, arg, h => by
    have hc : c ≠ '%' := h c (List.mem_cons_self c rest)
    cases hrest : rest ++ ['%', 's'] with
    | nil => exact absurd hrest (by simp)
    | cons c2 rest2 =>
      have : (c :: rest) ++ ['%', 's'] = c :: c2 :: rest2 := by
        rw [List.cons_append, hrest]
      rw [this, substPercentS, if_neg (fun hand => hc hand.1), ← hrest,
        substPercentS_no_percent rest arg (fun x hx => h x (List.mem_cons_of_mem c hx))]
      exact rfl

/-- The zero-hour branch of `formatClock` matches the spec's `MM:SS` shape
for every nonnegative duration. -/
theorem formatClock_mmss (d : Int) (hd : 0 ≤ d)
    (h0 : d.tdiv 3600000000000 = 0) : mmssShape (formatClock d) := by
  have hm0 : 0 ≤ (d.tdiv 60000000000).tmod 60 :=
    Int.tmod_nonneg 60 (Int.tdiv_nonneg hd (by decide))
  have hm1 : (d.tdiv 60000000000).tmod 60 < 60 := Int.tmod_lt_of_pos _ (by decide)
  have hs0 : 0 ≤ (d.tdiv 1000000000).tmod 60 :=
    Int.tmod_nonneg 60 (Int.tdiv_nonneg hd (by decide))
  have hs1 : (d.tdiv 1000000000).tmod 60 < 60 := Int.tmod_lt_of_pos _ (by decide)
  refine ⟨((d.tdiv 60000000000).tmod 60).toNat, Finset.mem_range.mpr (by omega),
    ((d.tdiv 1000000000).tmod 60).toNat, Finset.mem_range.mpr (by omega), ?_⟩
  have hsec : goSprintf02d ((d.tdiv 1000000000).tmod 60) =
      paddedTwoDigits ((d.tdiv 1000000000).tmod 60).toNat := by
    conv_lhs => rw [← Int.toNat_of_nonneg hs0]
    exact goSprintf02d_pad _ (by omega)
  simp only [formatClock]
  rw [h0, if_neg (by decide), int_repr_toNat _ hm0, hsec]

/-- The positive-hour branch of `formatClock` matches the spec's `H:MM:SS`
shape for every nonnegative duration. -/
theorem formatClock_hmmss (d : Int) (hd : 0 ≤ d)
    (h0 : d.tdiv 3600000000000 ≠ 0) : hmmssShape (formatClock d) := by
  have hhpos : 0 < d.tdiv 3600000000000 :=
    (Int.tdiv_nonneg hd (by decide)).lt_of_ne (Ne.symm h0)
  have hm0 : 0 ≤ (d.tdiv 60000000000).tmod 60 :=
    Int.tmod_nonneg 60 (Int.tdiv_nonneg hd (by decide))
  have hm1 : (d.tdiv 60000000000).tmod 60 < 60 := Int.tmod_lt_of_pos _ (by decide)
  have hs0 : 0 ≤ (d.tdiv 1000000000).tmod 60 :=
    Int.tmod_nonneg 60 (Int.tdiv_nonneg hd (by decide))
  have hs1 : (d.tdiv 1000000000).tmod 60 < 60 := Int.tmod_lt_of_pos _ (by decide)
  refine ⟨(d.tdiv 3600000000000).toNat, by omega,
    ((d.tdiv 60000000000).tmod 60).toNat, Finset.mem_range.mpr (by omega),
    ((d.tdiv 1000000000).tmod 60).toNat, Finset.mem_range.mpr (by omega), ?_⟩
  have hmin : goSprintf02d ((d.tdiv 60000000000).tmod 60) =
      paddedTwoDigits ((d.tdiv 60000000000).tmod 60).toNat := by
    conv_lhs => rw [← Int.toNat_of_nonneg hm0]
    exact goSprintf02d_pad _ (by omega)
  have hsec : goSprintf02d ((d.tdiv 1000000000).tmod 60) =
      paddedTwoDigits ((d.tdiv 1000000000).tmod 60).toNat := by
    conv_lhs => rw [← Int.toNat_of_nonneg hs0]
    exact goSprintf02d_pad _ (by omega)
  simp only [formatClock]
  rw [if_pos hhpos, int_repr_toNat _ (le_of_lt hhpos), hmin, hsec]

/-! ## Adapter unfolding lemmas -/

/-- Value of the instrumented adapter when service initialization fails. -/
theorem searchYouTubeT_no_service (env : YouTubeEnv) (apiKey query : String)
    (h1 : env.newService apiKey = none) :
    searchYouTubeT env apiKey query = ([], []) := by
  simp only [searchYouTubeT, h1]

/-- Value of the instrumented adapter when the search call fails. -/
theorem searchYouTubeT_search_err (env : YouTubeEnv) (apiKey query : String)
    (service : YouTubeService)
    (h1 : env.newService apiKey = some service)
    (h2 : service.searchList ⟨["id", "snippet"], query, 10, "video"⟩ = none) :
    searchYouTubeT env apiKey query =
      ([], [APICall.search ⟨["id", "snippet"], query, 10, "video"⟩]) := by
  simp only [searchYouTubeT, h1, h2]

/-- Value of the instrumented adapter when the details call fails. -/
theorem searchYouTubeT_details_err (env : YouTubeEnv) (apiKey query : String)
    (service : YouTubeService) (searchItems : List SearchResult)
    (h1 : env.newService apiKey = some service)
    (h2 : service.searchList ⟨["id", "snippet"], query, 10, "video"⟩ = some searchItems)
    (h3 : service.videosList ⟨["snippet", "contentDetails"],
        String.intercalate "," (searchItems.map (fun item => item.id.videoId))⟩ = none) :
    searchYouTubeT env apiKey query =
      ([], [APICall.search ⟨["id", "snippet"], query, 10, "video"⟩,
        APICall.videos ⟨["snippet", "contentDetails"],
          String.intercalate "," (searchItems.map (fun item => item.id.videoId))⟩]) := by
  simp only [searchYouTubeT, h1, h2, h3]

/-- Value of the instrumented adapter when both calls succeed. -/
theorem searchYouTubeT_success (env : YouTubeEnv) (apiKey query : String)
    (service : YouTubeService) (searchItems : List SearchResult) (detailItems : List Video)
    (h1 : env.newService apiKey = some service)
    (h2 : service.searchList ⟨["id", "snippet"], query, 10, "video"⟩ = some searchItems)
    (h3 : service.videosList ⟨["snippet", "contentDetails"],
        String.intercalate "," (searchItems.map (fun item => item.id.videoId))⟩ = some detailItems) :
    searchYouTubeT env apiKey query =
      (detailItems.map (fun item =>
        { id := item.id
          title := item.snippet.title
          channel := item.snippet.channelTitle
          duration := formatDuration item.contentDetails.duration }),
       [APICall.search ⟨["id", "snippet"], query, 10, "video"⟩,
        APICall.videos ⟨["snippet", "contentDetails"],
          String.intercalate "," (searchItems.map (fun item => item.id.videoId))⟩]) := by
  simp only [searchYouTubeT, h1, h2, h3]

/-! ## Sample environments (used by witnesses) -/

def sampleSearchItems : List SearchResult := [⟨⟨"abc123"⟩⟩]

def sampleDetailItems : List Video :=
  [⟨"abc123", ⟨"A Title", "A Channel"⟩, ⟨"PT2M5S"⟩⟩]

def sampleService : YouTubeService :=
  ⟨fun _ => some sampleSearchItems, fun _ => some sampleDetailItems⟩

def sampleEnv : YouTubeEnv := ⟨fun _ => some sampleService⟩

def searchFailService : YouTubeService := ⟨fun _ => none, fun _ => some []⟩

def searchFailEnv : YouTubeEnv := ⟨fun _ => some searchFailService⟩

def noServiceEnv : YouTubeEnv := ⟨fun _ => none⟩

def emptyKeyEnv : MainEnv :=
  ⟨Except.ok (), fun _ => "", ⟨Except.ok (), fun _ => Except.ok ()⟩⟩

def dbFailEnv : MainEnv :=
  ⟨Except.ok (), fun _ => "AIza-sample", ⟨Except.error "open failed", fun _ => Except.ok ()⟩⟩

def dotenvFailEnv : MainEnv :=
  ⟨Except.error "open .env: no such file or directory", fun _ => "AIza-sample",
   ⟨Except.ok (), fun _ => Except.ok ()⟩⟩

theorem string_data_append (a b : String) : (a ++ b).data = a.data ++ b.data := rfl

/-- The concrete formatter output `0:-5` (truncated negative seconds)
does not match the spec's `MM:SS` shape: its second field is not a
two-digit zero-padded number. -/
theorem not_mmssShape_neg_seconds : ¬ mmssShape "0:-5" := by
  rintro ⟨m, hm, s, hs, heq⟩
  rw [Finset.mem_range] at hm hs
  have hpadlen : ∀ k : Nat, k < 60 → (paddedTwoDigits k).data.length = 2 := by decide
  have hnodash : ∀ k : Nat, k < 60 → '-' ∈ (paddedTwoDigits k).data → False := by decide
  have happ : ("0:-5").data = (Nat.repr m).data ++ ':' :: (paddedTwoDigits s).data := by
    rw [heq]
    simp only [string_data_append, List.append_assoc]
    rfl
  have hlen1 : (Nat.repr m).data.length = 1 := by
    have hll := congrArg List.length happ
    rw [show List.length (("0:-5").data) = 4 from rfl, List.length_append,
      List.length_cons, hpadlen s hs] at hll
    omega
  obtain ⟨c, hc⟩ := List.length_eq_one.mp hlen1
  rw [hc, show ("0:-5").data = ['0', ':', '-', '5'] from rfl] at happ
  simp only [List.singleton_append, List.cons.injEq] at happ
  exact hnodash s hs (by rw [← happ.2.2]; simp)

/-! ## Claim theorems -/

/-- C1: for every successful two-stage adapter call, `searchYouTube`
returns exactly one record per detail-response item — identifier, title
and channel taken from that item and duration the formatter applied to the
raw content-detail duration — in the order of the details response; the
bound of 10 records follows from the consumed external API contract (spec
§6: the search endpoint honors `MaxResults(10)` and the details endpoint
returns at most one item per requested identifier), stated here as the two
length hypotheses.  On any failure (service initialization, search call,
details call) the adapter returns the empty sequence. -/
theorem searchYouTube_contract :
    (∀ (env : YouTubeEnv) (apiKey query : String) (service : YouTubeService)
        (searchItems : List SearchResult) (detailItems : List Video),
      env.newService apiKey = some service →
      service.searchList ⟨["id", "snippet"], query, 10, "video"⟩ = some searchItems →
      service.videosList ⟨["snippet", "contentDetails"],
          String.intercalate "," (searchItems.map (fun item => item.id.videoId))⟩ =
        some detailItems →
      searchItems.length ≤ 10 → detailItems.length ≤ searchItems.length →
      searchYouTube env apiKey query = detailItems.map (fun item =>
        { id := item.id
          title := item.snippet.title
          channel := item.snippet.channelTitle
          duration := formatDuration item.contentDetails.duration }) ∧
      (searchYouTube env apiKey query).length ≤ 10) ∧
    (∀ (env : YouTubeEnv) (apiKey query : String),
      (env.newService apiKey = none ∨
       (∃ service, env.newService apiKey = some service ∧
         service.searchList ⟨["id", "snippet"], query, 10, "video"⟩ = none) ∨
       (∃ service searchItems, env.newService apiKey = some service ∧
         service.searchList ⟨["id", "snippet"], query, 10, "video"⟩ = some searchItems ∧
         service.videosList ⟨["snippet", "contentDetails"],
           String.intercalate "," (searchItems.map (fun item => item.id.videoId))⟩ = none)) →
      searchYouTube env apiKey query = []) := by
  constructor
  · intro env apiKey query service searchItems detailItems h1 h2 h3 hS hD
    have hres : searchYouTube env apiKey query = detailItems.map (fun item =>
        { id := item.id
          title := item.snippet.title
          channel := item.snippet.channelTitle
          duration := formatDuration item.contentDetails.duration }) := by
      show (searchYouTubeT env apiKey query).1 = _
      rw [searchYouTubeT_success env apiKey query service searchItems detailItems h1 h2 h3]
    refine ⟨hres, ?_⟩
    rw [hres, List.length_map]
    exact le_trans hD hS
  · intro env apiKey query hfail
    rcases hfail with h1 | ⟨service, h1, h2⟩ | ⟨service, searchItems, h1, h2, h3⟩
    · show (searchYouTubeT env apiKey query).1 = _
      rw [searchYouTubeT_no_service env apiKey query h1]
    · show (searchYouTubeT env apiKey query).1 = _
      rw [searchYouTubeT_search_err env apiKey query service h1 h2]
    · show (searchYouTubeT env apiKey query).1 = _
      rw [searchYouTubeT_details_err env apiKey query service searchItems h1 h2 h3]

/-- C1 witness: the contract evaluated at a concrete succeeding
environment and at a concrete failing one. -/
theorem searchYouTube_contract_witness :
    (searchYouTube sampleEnv "APIKEY" "lean" =
      [{ id := "abc123", title := "A Title", channel := "A Channel", duration := "2:05" }] ∧
     (searchYouTube sampleEnv "APIKEY" "lean").length ≤ 10) ∧
    searchYouTube noServiceEnv "APIKEY" "lean" = [] := by
  refine ⟨⟨?_, ?_⟩, searchYouTube_contract.2 noServiceEnv "APIKEY" "lean" (Or.inl rfl)⟩
  · exact (searchYouTube_contract.1 sampleEnv "APIKEY" "lean" sampleService
      sampleSearchItems sampleDetailItems rfl rfl rfl (by decide) (by decide)).1.trans
      (by decide)
  · exact (searchYouTube_contract.1 sampleEnv "APIKEY" "lean" sampleService
      sampleSearchItems sampleDetailItems rfl rfl rfl (by decide) (by decide)).2

/-- C2: if the search-stage call fails, the adapter returns the empty
sequence and its call trace contains no details-stage call. -/
theorem searchYouTube_search_fail_no_details :
    ∀ (env : YouTubeEnv) (apiKey query : String) (service : YouTubeService),
      env.newService apiKey = some service →
      service.searchList ⟨["id", "snippet"], query, 10, "video"⟩ = none →
      searchYouTube env apiKey query = [] ∧
      ∀ p : VideosParams, APICall.videos p ∉ (searchYouTubeT env apiKey query).2 := by
  intro env apiKey query service h1 h2
  have htrace := searchYouTubeT_search_err env apiKey query service h1 h2
  constructor
  · show (searchYouTubeT env apiKey query).1 = _
    rw [htrace]
  · intro p hp
    rw [htrace] at hp
    simp at hp

/-- C2 witness: the theorem at a concrete environment whose search call
fails. -/
theorem searchYouTube_search_fail_no_details_witness :
    searchYouTube searchFailEnv "APIKEY" "lean" = [] ∧
    ∀ p : VideosParams, APICall.videos p ∉ (searchYouTubeT searchFailEnv "APIKEY" "lean").2 :=
  searchYouTube_search_fail_no_details searchFailEnv "APIKEY" "lean" searchFailService rfl rfl

/-- C3 counterexample: the claim as stated quantifies over every duration
string, but the input `pt-5s` parses to the negative duration −5 s, whose
hour component is zero, and formats as `0:-5`, which is not of the claimed
`MM:SS` shape (the seconds field is not a two-digit zero-padded number). -/
theorem claimedClockShapes_false : ¬ claimedClockShapes := by
  intro h
  have hshape := (h "pt-5s" (-5000000000) (by decide)).1 (by decide)
  rw [(by decide : formatDuration "pt-5s" = "0:-5")] at hshape
  exact not_mmssShape_neg_seconds hshape

/-- C3 (amended): for every duration string whose parsed value is
nonnegative, a zero hour component yields the `MM:SS` shape (minutes
unpadded, seconds zero-padded to two digits) and a nonzero (hence
positive) hour component yields the `H:MM:SS` shape (hour unpadded,
minutes and seconds zero-padded to two digits). -/
theorem formatDuration_clock_shapes :
    ∀ (s : String) (d : Int),
      goParseDuration (goReplaceAllPT (goStringToLower s)) = some d →
      0 ≤ d →
      (d.tdiv 3600000000000 = 0 → mmssShape (formatDuration s)) ∧
      (d.tdiv 3600000000000 ≠ 0 → hmmssShape (formatDuration s)) := by
  intro s d hparse hd
  have hfd : formatDuration s = formatClock d := by
    simp only [formatDuration, hparse, Option.getD_some]
  constructor
  · intro h0
    rw [hfd]
    exact formatClock_mmss d hd h0
  · intro h0
    rw [hfd]
    exact formatClock_hmmss d hd h0

/-- C3 witness: the amended claim at the spec's own examples `PT2M5S`
(zero hours) and `PT1H2M3S` (one hour). -/
theorem formatDuration_clock_shapes_witness :
    mmssShape (formatDuration "PT2M5S") ∧ hmmssShape (formatDuration "PT1H2M3S") :=
  ⟨(formatDuration_clock_shapes "PT2M5S" 125000000000 (by decide) (by decide)).1 (by decide),
   (formatDuration_clock_shapes "PT1H2M3S" 3723000000000 (by decide) (by decide)).2 (by decide)⟩

/-- C4: for every input whose (preprocessed) duration string fails to
parse, the parse error is discarded, the zero-value duration remains, and
`formatDuration` returns exactly `0:00`; no error is surfaced — the
function's only output is this string. -/
theorem formatDuration_parse_failure_zero :
    ∀ s : String,
      goParseDuration (goReplaceAllPT (goStringToLower s)) = none →
      formatDuration s = "0:00" := by
  intro s h
  simp only [formatDuration, h]
  decide

/-- C4 witness: the empty string fails to parse and formats as `0:00`. -/
theorem formatDuration_parse_failure_zero_witness :
    goParseDuration (goReplaceAllPT (goStringToLower "")) = none ∧
    formatDuration "" = "0:00" :=
  ⟨by decide, formatDuration_parse_failure_zero "" (by decide)⟩

/-- C5 counterexample: the parsing step does not strip only one leading
`PT`.  On `PT1MPT1S` the code removes both occurrences of `pt` and parses
`1m1s` (formatting `1:01`), while the claimed strip-one-prefix policy would
leave `1mpt1s`, which fails to parse and would format as `0:00`. -/
theorem claimedSinglePTStrip_false : ¬ claimedSinglePTStrip := by
  intro h
  exact absurd (h "PT1MPT1S") (by decide)

/-- C5 (amended): the parsing step lowercases the whole string and removes
every non-overlapping occurrence of `pt` in one left-to-right pass, not
only a leading prefix.  In particular (first conjunct) a string whose
lowercased form contains no `pt` is passed through unchanged, and (second
conjunct) a string whose lowercased form is `pt` followed by a remainder
free of `pt` has exactly that prefix stripped, as the original claim
described. -/
theorem formatDuration_pt_replacement :
    (∀ s : String, hasPT (goStringToLower s).data = false →
      goReplaceAllPT (goStringToLower s) = goStringToLower s) ∧
    (∀ (s : String) (rest : List Char),
      (goStringToLower s).data = 'p' :: 't' :: rest →
      hasPT rest = false →
      goReplaceAllPT (goStringToLower s) = String.mk rest) := by
  constructor
  · intro s h
    show String.mk (replaceAllPTList (goStringToLower s).data) = _
    rw [replaceAllPTList_eq_self _ h, stringMk_data]
  · intro s rest hdata h
    show String.mk (replaceAllPTList (goStringToLower s).data) = _
    rw [hdata, replaceAllPTList, if_pos ⟨rfl, rfl⟩, replaceAllPTList_eq_self _ h]

/-- C5 witness: the amended claim at concrete inputs — `1h2m` has no `pt`
occurrence and is unchanged; `PT2M5S` has exactly a leading prefix, which
is stripped. -/
theorem formatDuration_pt_replacement_witness :
    goReplaceAllPT (goStringToLower "1h2m") = goStringToLower "1h2m" ∧
    goReplaceAllPT (goStringToLower "PT2M5S") = String.mk ['2', 'm', '5', 's'] :=
  ⟨formatDuration_pt_replacement.1 "1h2m" (by decide),
   formatDuration_pt_replacement.2 "PT2M5S" ['2', 'm', '5', 's'] (by decide) (by decide)⟩

/-- C6: whenever the adapter returns the empty sequence, the search
handler answers `404` with the plain-text body `No videos found.`, and
never the results view. -/
theorem handleSearch_empty_404 :
    ∀ (env : YouTubeEnv) (apiKey query : String),
      searchYouTube env apiKey query = [] →
      handleSearch env apiKey query = GinResponse.plainText 404 "No videos found." ∧
      ∀ (status : Nat) (data : TemplateData),
        handleSearch env apiKey query ≠ GinResponse.htmlTemplate status "results.html" data := by
  intro env apiKey query h
  have hmain : handleSearch env apiKey query = GinResponse.plainText 404 "No videos found." := by
    simp [handleSearch, h]
  refine ⟨hmain, ?_⟩
  intro status data hcontra
  rw [hmain] at hcontra
  exact GinResponse.noConfusion hcontra

/-- C6 witness: the theorem at a concrete environment on which the adapter
fails and hence returns the empty sequence. -/
theorem handleSearch_empty_404_witness :
    handleSearch noServiceEnv "APIKEY" "lean" = GinResponse.plainText 404 "No videos found." ∧
    ∀ (status : Nat) (data : TemplateData),
      handleSearch noServiceEnv "APIKEY" "lean" ≠
        GinResponse.htmlTemplate status "results.html" data :=
  handleSearch_empty_404 noServiceEnv "APIKEY" "lean" rfl

/-- C7: whenever the adapter returns a non-empty sequence, the search
handler renders the results view with exactly that sequence, in order
(first conjunct); under a successful two-stage call the rendered records
are precisely the detail items in the details-response order, each
carrying its duration already formatted (second conjunct). -/
theorem handleSearch_nonempty_renders :
    ∀ (env : YouTubeEnv) (apiKey query : String),
      searchYouTube env apiKey query ≠ [] →
      handleSearch env apiKey query = GinResponse.htmlTemplate 200 "results.html"
        (TemplateData.videos (searchYouTube env apiKey query)) ∧
      (∀ (service : YouTubeService) (searchItems : List SearchResult)
          (detailItems : List Video),
        env.newService apiKey = some service →
        service.searchList ⟨["id", "snippet"], query, 10, "video"⟩ = some searchItems →
        service.videosList ⟨["snippet", "contentDetails"],
            String.intercalate "," (searchItems.map (fun item => item.id.videoId))⟩ =
          some detailItems →
        handleSearch env apiKey query = GinResponse.htmlTemplate 200 "results.html"
          (TemplateData.videos (detailItems.map (fun item =>
            { id := item.id
              title := item.snippet.title
              channel := item.snippet.channelTitle
              duration := formatDuration item.contentDetails.duration })))) := by
  intro env apiKey query hne
  have hlen : ¬ (searchYouTube env apiKey query).length = 0 := by
    intro hl
    exact hne (List.length_eq_zero.mp hl)
  have hmain : handleSearch env apiKey query = GinResponse.htmlTemplate 200 "results.html"
      (TemplateData.videos (searchYouTube env apiKey query)) := by
    simp only [handleSearch, if_neg hlen]
  refine ⟨hmain, ?_⟩
  intro service searchItems detailItems h1 h2 h3
  rw [hmain]
  have hres : searchYouTube env apiKey query = detailItems.map (fun item =>
      { id := item.id
        title := item.snippet.title
        channel := item.snippet.channelTitle
        duration := formatDuration item.contentDetails.duration }) := by
    show (searchYouTubeT env apiKey query).1 = _
    rw [searchYouTubeT_success env apiKey query service searchItems detailItems h1 h2 h3]
  rw [hres]

/-- C7 witness: the theorem at a concrete environment whose adapter call
succeeds with one record. -/
theorem handleSearch_nonempty_renders_witness :
    handleSearch sampleEnv "APIKEY" "lean" = GinResponse.htmlTemplate 200 "results.html"
      (TemplateData.videos (searchYouTube sampleEnv "APIKEY" "lean")) :=
  (handleSearch_nonempty_renders sampleEnv "APIKEY" "lean" (by decide)).1

/-- C8: the embed handler substitutes the path-bound identifier into the
fixed template, yielding exactly `https://www.youtube.com/embed/` followed
by the identifier, with no validation; in particular identifier `abc123`
yields exactly `https://www.youtube.com/embed/abc123`. -/
theorem embedVideo_url :
    (∀ videoID : String,
      embedVideo videoID = GinResponse.htmlTemplate 200 "embed.html"
        (TemplateData.embedURL ("https://www.youtube.com/embed/" ++ videoID))) ∧
    embedVideo "abc123" = GinResponse.htmlTemplate 200 "embed.html"
      (TemplateData.embedURL "https://www.youtube.com/embed/abc123") := by
  have hsub : ∀ videoID : String,
      goSprintfS "https://www.youtube.com/embed/%s" videoID =
        "https://www.youtube.com/embed/" ++ videoID := by
    intro videoID
    show String.mk (substPercentS ("https://www.youtube.com/embed/%s").data videoID.data) = _
    rw [show ("https://www.youtube.com/embed/%s").data =
        ("https://www.youtube.com/embed/").data ++ ['%', 's'] from rfl,
      substPercentS_no_percent _ _ (by decide), stringMk_append, stringMk_data, stringMk_data]
  constructor
  · intro videoID
    show GinResponse.htmlTemplate 200 "embed.html"
        (TemplateData.embedURL (goSprintfS "https://www.youtube.com/embed/%s" videoID)) = _
    rw [hsub]
  · decide

/-- C9: if the credential is absent from the environment or storage
initialization fails, startup ends in `log.Fatal` — the outcome is fatal,
never serving, and no listen step is reached. -/
theorem startup_requires_credential_and_storage :
    ∀ env : MainEnv,
      (env.getenvVar "YOUTUBE_API_KEY" = "" ∨ ∃ e, InitDB env.db = Except.error e) →
      (∃ msg, (runMainT env).1 = MainOutcome.fatal msg) ∧
      (runMainT env).1 ≠ MainOutcome.serving ∧
      ∀ addr, StartupEvent.listen addr ∉ (runMainT env).2 := by
  intro env hbad
  cases hload : env.dotenvLoad with
  | error e =>
    refine ⟨⟨"Error loading .env file", by simp [runMainT, hload]⟩, ?_, ?_⟩
    · simp [runMainT, hload]
    · intro addr
      simp [runMainT, hload]
  | ok u =>
    by_cases hkey : env.getenvVar "YOUTUBE_API_KEY" = ""
    · refine ⟨⟨"YouTube API key not found in environment", by simp [runMainT, hload, hkey]⟩, ?_, ?_⟩
      · simp [runMainT, hload, hkey]
      · intro addr
        simp [runMainT, hload, hkey]
    · obtain ⟨e, he⟩ := hbad.resolve_left hkey
      refine ⟨⟨"storage initialization failed", by simp [runMainT, hload, hkey, he]⟩, ?_, ?_⟩
      · simp [runMainT, hload, hkey, he]
      · intro addr
        simp [runMainT, hload, hkey, he]

/-- C9 witness: the theorem at a concrete environment with the credential
unset, and at one whose storage open fails. -/
theorem startup_requires_credential_and_storage_witness :
    ((∃ msg, (runMainT emptyKeyEnv).1 = MainOutcome.fatal msg) ∧
     (runMainT emptyKeyEnv).1 ≠ MainOutcome.serving ∧
     ∀ addr, StartupEvent.listen addr ∉ (runMainT emptyKeyEnv).2) ∧
    ((∃ msg, (runMainT dbFailEnv).1 = MainOutcome.fatal msg) ∧
     (runMainT dbFailEnv).1 ≠ MainOutcome.serving ∧
     ∀ addr, StartupEvent.listen addr ∉ (runMainT dbFailEnv).2) :=
  ⟨startup_requires_credential_and_storage emptyKeyEnv (Or.inl rfl),
   startup_requires_credential_and_storage dbFailEnv (Or.inr ⟨"open failed", rfl⟩)⟩

/-- C10: if loading the `.env` file fails, startup is fatal with the
`.env` message before the environment is consulted — no `Getenv` step
appears in the trace — even when the credential is present in the process
environment. -/
theorem startup_dotenv_failure_fatal :
    ∀ (env : MainEnv) (e : String),
      env.dotenvLoad = Except.error e →
      env.getenvVar "YOUTUBE_API_KEY" ≠ "" →
      (runMainT env).1 = MainOutcome.fatal "Error loading .env file" ∧
      (∀ name, StartupEvent.getenv name ∉ (runMainT env).2) ∧
      (runMainT env).1 ≠ MainOutcome.serving := by
  intro env e hload _hkey
  refine ⟨by simp [runMainT, hload], ?_, by simp [runMainT, hload]⟩
  intro name
  simp [runMainT, hload]

/-- C10 witness: the theorem at a concrete environment whose `.env` load
fails while the credential is present. -/
theorem startup_dotenv_failure_fatal_witness :
    (runMainT dotenvFailEnv).1 = MainOutcome.fatal "Error loading .env file" ∧
    (∀ name, StartupEvent.getenv name ∉ (runMainT dotenvFailEnv).2) ∧
    (runMainT dotenvFailEnv).1 ≠ MainOutcome.serving :=
  startup_dotenv_failure_fatal dotenvFailEnv "open .env: no such file or directory" rfl
    (by decide)
